import Mathlib

/-!
# Go-Proxy: a shallow embedding of `main.go`

The program reads three lists of forwarding rules (`tcp`, `http`, `ws`) and, for each
rule, starts a listener whose handler relays traffic to the rule's target.

The embedding follows `main.go` block by block:

* the two HTTP handlers of an HTTP rule (lines 147-197) and the plain-HTTP handler of a
  WebSocket rule (lines 247-275);
* the two WebSocket handlers (lines 223-245);
* the body of the TCP accept loop (lines 64-130) and the two copy goroutines it starts;
* the three start-up loops of `main` (lines 45-292).

Calls into the Go standard library and the operating system (`http.NewRequest`,
`net.ResolveTCPAddr`, `net.ParseIP`, `net.DialTCP`, `net.Dial`) are fields of an
environment record `Env`, so that every general statement holds for whatever these calls
return.  A concrete environment `goEnv` is given for the evaluations on concrete inputs.
-/

namespace GoProxy

/-! ## Go primitives -/

/-- Go's builtin `len` on a string: the number of bytes of its UTF-8 encoding. -/
def len (s : String) : Nat := s.utf8ByteSize

/-- The verb `%d` of package fmt applied to a Go `int`. -/
def fmtD (i : Int) : String := toString i

/-- The verb `%q` of package fmt, for strings of printable ASCII characters that contain
neither a double quote nor a backslash (on those it only adds the surrounding quotes). -/
def fmtQ (s : String) : String := "\"" ++ s ++ "\""

/-- Go's `http.StatusInternalServerError`. -/
def StatusInternalServerError : Nat := 500

/-! ## Data model -/

/-- The type `http.Header`: header names with their values. -/
abbrev Header := List (String × List String)

/-- The method `Header.Get` for a key that is already in canonical form: the first value
stored under the key, or the empty string. -/
def Header.Get (h : Header) (key : String) : String :=
  match h.lookup key with
  | some (v :: _) => v
  | _ => ""

/-- The fields of `url.URL` that the program reads or writes. `Path` holds the path as it
is written in the URL. -/
structure URL where
  Scheme : String
  Host : String
  Path : String
  RawQuery : String
  Fragment : String
  deriving DecidableEq, Repr

/-- The method `URL.RequestURI` for a URL with a non-empty path: path, then `?query` when
there is a query. -/
def URL.RequestURI (u : URL) : String :=
  if u.RawQuery = "" then u.Path else u.Path ++ "?" ++ u.RawQuery

/-- The fields of `http.Request` that the program reads or writes. An inbound request has
`Method`, `RequestURI`, `Header`, `Host` and `Body` filled in by the server; an outbound
one has `Method`, `URL`, `Header`, `Host` and `Body`. -/
structure Request where
  Method : String
  URL : URL
  Header : Header
  Body : String
  Host : String
  RequestURI : String
  deriving DecidableEq, Repr

/-- The type `net.IP`: `none` is the nil IP. -/
abbrev IP := Option (List Nat)

/-- The type `net.TCPAddr`. -/
structure TCPAddr where
  IP : IP
  Port : Int
  Zone : String
  deriving DecidableEq, Repr

/-- A network connection handle, with what `RemoteAddr()` prints. -/
structure Conn where
  id : Nat
  RemoteAddr : String
  deriving DecidableEq, Repr

/-- The struct `httpProxyConfig` of `main.go` (lines 19-24); the HTTP loop reads the same
four keys from the configuration map. -/
structure httpProxyConfig where
  SourceAddress : String
  TargetHost : String
  TargetPort : Int
  LocalPort : Int
  deriving DecidableEq, Repr

/-- The struct `webSocketProxyConfig` of `main.go` (lines 26-32). -/
structure webSocketProxyConfig where
  SourceAddress : String
  TargetHost : String
  TargetPort : Int
  LocalPort : Int
  Secure : Bool
  deriving DecidableEq, Repr

/-- The keys a TCP rule is read from (lines 52-54). -/
structure tcpProxyConfig where
  local_port : Int
  source_address : String
  target_address : String
  deriving DecidableEq, Repr

/-- The library and operating-system calls made by the handlers. A pointer result that is
nil on error is an `Except`. -/
structure Env where
  /-- The function `http.NewRequest(method, url, body)`. -/
  NewRequest : String → String → String → Except String Request
  /-- The function `net.ResolveTCPAddr("tcp", address)`. -/
  ResolveTCPAddr : String → Except String TCPAddr
  /-- The function `net.ParseIP`. -/
  ParseIP : String → IP
  /-- The method `IP.String`. -/
  IPString : IP → String
  /-- The function `net.DialTCP("tcp", laddr, raddr)`. -/
  DialTCP : TCPAddr → TCPAddr → Except String Conn
  /-- The function `net.Dial("tcp", address)`. -/
  Dial : String → Except String Conn

/-! ## HTTP forward handlers -/

/-- The `Transport` field of the `httputil.ReverseProxy` a handler builds: left unset
(the proxy then uses `http.DefaultTransport`, which dials the host of the request URL), or
an `http.Transport` whose `Dial` ignores its arguments and calls
`net.DialTCP("tcp", laddr, raddr)`; `laddr` is `none` when the pointer is nil. -/
inductive Transport where
  | default
  | dialTCP (laddr : Option TCPAddr) (raddr : TCPAddr)
  deriving DecidableEq, Repr

/-- What a handler does with one inbound request: answer through
`http.Error(w, body, code)`, or call `proxy.ServeHTTP(w, req)`, recorded as the request
after the proxy's `Director` has run, with the proxy's transport. -/
inductive Response where
  | httpError (body : String) (code : Nat)
  | proxied (outreq : Request) (transport : Transport)
  deriving DecidableEq, Repr

/-- The string `fmt.Sprintf("http://%s:%d%s", targetHost, targetPort, r.RequestURI)`
(lines 149, 179, 248). -/
def targetURL (targetHost : String) (targetPort : Int) (r : Request) : String :=
  "http://" ++ targetHost ++ ":" ++ fmtD targetPort ++ r.RequestURI

/-- The request a handler builds before it creates the proxy (lines 149-156, 179-186,
248-255): `http.NewRequest`, then `req.Header = r.Header` and `req.Host = targetHost`. -/
def buildRequest (env : Env) (targetHost : String) (targetPort : Int) (r : Request) :
    Except String Request :=
  match env.NewRequest r.Method (targetURL targetHost targetPort r) r.Body with
  | .error err => .error err
  | .ok req => .ok { req with Header := r.Header, Host := targetHost }

/-- The `Director` closure of the proxies (lines 160-164, 189-193, 259-263). -/
def Director (targetHost : String) (req : Request) : Request :=
  { req with URL := { req.URL with Scheme := "http", Host := targetHost }, Host := targetHost }

/-- The result of `sourceAddr, _ := net.ResolveTCPAddr("tcp", sourceAddress)`
(lines 158, 257): the error is dropped and the pointer is nil on error. -/
def resolveSource (env : Env) (sourceAddress : String) : Option TCPAddr :=
  match env.ResolveTCPAddr sourceAddress with
  | .ok a => some a
  | .error _ => none

/-- The transport of lines 165-173 and 264-272. -/
def boundTransport (env : Env) (sourceAddress targetHost : String) (targetPort : Int) :
    Transport :=
  .dialTCP (resolveSource env sourceAddress)
    { IP := env.ParseIP targetHost, Port := targetPort, Zone := "" }

/-- The handler of an HTTP rule with a source address (lines 148-176). -/
def httpHandlerSource (env : Env) (cfg : httpProxyConfig) (r : Request) : Response :=
  match buildRequest env cfg.TargetHost cfg.TargetPort r with
  | .error err => .httpError err StatusInternalServerError
  | .ok req =>
    .proxied (Director cfg.TargetHost req)
      (boundTransport env cfg.SourceAddress cfg.TargetHost cfg.TargetPort)

/-- The handler of an HTTP rule without a source address (lines 178-196). -/
def httpHandlerDefault (env : Env) (cfg : httpProxyConfig) (r : Request) : Response :=
  match buildRequest env cfg.TargetHost cfg.TargetPort r with
  | .error err => .httpError err StatusInternalServerError
  | .ok req => .proxied (Director cfg.TargetHost req) .default

/-- The handler registered on the mux of an HTTP rule (lines 147-197). -/
def httpHandler (env : Env) (cfg : httpProxyConfig) (r : Request) : Response :=
  if len cfg.SourceAddress > 0 then httpHandlerSource env cfg r
  else httpHandlerDefault env cfg r

/-- The handler registered on `httpMux` of a WebSocket rule (lines 247-275). -/
def wsHttpHandler (env : Env) (cfg : webSocketProxyConfig) (r : Request) : Response :=
  match buildRequest env cfg.TargetHost cfg.TargetPort r with
  | .error err => .httpError err StatusInternalServerError
  | .ok req =>
    .proxied (Director cfg.TargetHost req)
      (boundTransport env cfg.SourceAddress cfg.TargetHost cfg.TargetPort)

/-! ## A concrete environment

`net/http` and `net/url` are pure, so `http.NewRequest` is modelled directly.  The model
covers target URLs `scheme://host[:port]path[?query][#fragment]` without user info,
percent escapes or bracketed IPv6 hosts; on a URL outside this subset it returns the
error `outsideModel`, which the library does not have.  Name resolution is modelled for a
host without name service: only IPv4 literals resolve. -/

/-- The error returned by the concrete model on inputs it does not cover. -/
def outsideModel : String := "outside the modelled subset"

/-- The function `strings.Cut` for a one-byte separator: the text before the first
occurrence and the text after it (empty when there is none). -/
def cutAt (sep : Char) (s : List Char) : List Char × List Char :=
  ((s.span (· ≠ sep)).1, ((s.span (· ≠ sep)).2).drop 1)

/-- The function `stringContainsCTLByte` of `net/url`. -/
def stringContainsCTLByte (s : List Char) : Bool :=
  s.any (fun c => c.toNat < 0x20 || c.toNat == 0x7f)

/-- The loop of `getScheme` of `net/url`, with the index `i` kept as the characters
already read (in reverse). -/
def getSchemeLoop (rawURL : List Char) : List Char → List Char → Except String (List Char × List Char)
  | _, [] => .ok ([], rawURL)
  | seen, c :: cs =>
    if c.isAlpha then getSchemeLoop rawURL (c :: seen) cs
    else if c.isDigit || c == '+' || c == '-' || c == '.' then
      if seen.isEmpty then .ok ([], rawURL) else getSchemeLoop rawURL (c :: seen) cs
    else if c == ':' then
      if seen.isEmpty then .error "missing protocol scheme" else .ok (seen.reverse, cs)
    else .ok ([], rawURL)

/-- The function `getScheme` of `net/url`. -/
def getScheme (rawURL : List Char) : Except String (List Char × List Char) :=
  getSchemeLoop rawURL [] rawURL

/-- The function `validOptionalPort` of `net/url`. -/
def validOptionalPort (port : List Char) : Bool :=
  match port with
  | [] => true
  | c :: cs => c == ':' && cs.all Char.isDigit

/-- The slice `host[strings.LastIndex(host, ":"):]`, when the host has a colon. -/
def colonPort (host : List Char) : Option (List Char) :=
  if host.contains ':' then some (':' :: (host.reverse.takeWhile (· ≠ ':')).reverse)
  else none

/-- The function `shouldEscape(c, encodeHost)` of `net/url` on an ASCII character other
than the percent sign. -/
def shouldEscapeHost (c : Char) : Bool :=
  !(c.isAlphanum ||
    [33, 36, 38, 39, 40, 41, 42, 43, 44, 59, 61, 58, 91, 93, 60, 62, 34,
     45, 95, 46, 126].contains c.toNat)

/-- The function `parseHost` of `net/url` on a host that has no bracket and no percent
sign. -/
def parseHost (host : List Char) : Except String String :=
  if (match colonPort host with
      | some cp => !validOptionalPort cp
      | none => false) then
    .error ("invalid port " ++ fmtQ (String.mk ((colonPort host).getD [])) ++ " after host")
  else
    match host.find? (fun c => c.toNat < 0x80 && shouldEscapeHost c) with
    | some c => .error ("invalid character " ++ fmtQ (String.mk [c]) ++ " in host name")
    | none => .ok (String.mk host)

/-- The text of a `url.Error` with operation `parse`. -/
def parseError (u : List Char) (err : String) : String :=
  "parse " ++ fmtQ (String.mk u) ++ ": " ++ err

/-- The function `url.Parse` on the modelled subset. -/
def urlParse (rawURL : String) : Except String URL :=
  let u := (cutAt '#' rawURL.data).1
  let frag := (cutAt '#' rawURL.data).2
  if stringContainsCTLByte u then
    .error (parseError u "net/url: invalid control character in URL")
  else
    match getScheme u with
    | .error err => .error (parseError u err)
    | .ok (scheme, afterScheme) =>
      let rest := (cutAt '?' afterScheme).1
      let query := (cutAt '?' afterScheme).2
      if scheme.isEmpty || rest.take 2 != ['/', '/'] then .error outsideModel
      else
        let authority := ((rest.drop 2).span (· ≠ '/')).1
        let path := ((rest.drop 2).span (· ≠ '/')).2
        if authority.any (fun c => c == '@' || c == '[' || c == '%')
            || path.contains '%' || frag.contains '%' then .error outsideModel
        else
          match parseHost authority with
          | .error err => .error (parseError u err)
          | .ok host =>
            .ok { Scheme := String.mk (scheme.map Char.toLower), Host := host,
                  Path := String.mk path, RawQuery := String.mk query,
                  Fragment := String.mk frag }

/-- The function `httpguts.IsTokenRune`. -/
def IsTokenRune (c : Char) : Bool :=
  c.isAlphanum ||
    [33, 35, 36, 37, 38, 39, 42, 43, 45, 46, 94, 95, 96, 124, 126].contains c.toNat

/-- The function `validMethod` of `net/http`. -/
def validMethod (method : String) : Bool :=
  len method > 0 && method.data.all IsTokenRune

/-- The function `removeEmptyPort` of `net/http` on a host without brackets. -/
def removeEmptyPort (host : String) : String :=
  if host.data.getLast? = some ':' then String.mk host.data.dropLast else host

/-- The function `http.NewRequest(method, url, body)`. -/
def NewRequest (method url body : String) : Except String Request :=
  let method := if method = "" then "GET" else method
  if !validMethod method then .error ("net/http: invalid method " ++ fmtQ method)
  else
    match urlParse url with
    | .error err => .error err
    | .ok u =>
      .ok { Method := method, URL := { u with Host := removeEmptyPort u.Host },
            Header := [], Body := body, Host := removeEmptyPort u.Host, RequestURI := "" }

/-- Decimal digits to a number. -/
def parseDec (s : List Char) : Option Nat :=
  if s.isEmpty || !s.all Char.isDigit then none
  else some (s.foldl (fun n c => 10 * n + (c.toNat - 48)) 0)

/-- The function `net.ParseIP` on dotted-quad IPv4 text; the address is kept as its four
bytes. Other text (IPv6 included) is outside this model and gives nil. -/
def ParseIP (s : String) : IP :=
  let a := (cutAt '.' s.data).1
  let r1 := (cutAt '.' s.data).2
  let b := (cutAt '.' r1).1
  let r2 := (cutAt '.' r1).2
  let c := (cutAt '.' r2).1
  let d := (cutAt '.' r2).2
  match parseDec a, parseDec b, parseDec c, parseDec d with
  | some a, some b, some c, some d =>
    if a < 256 && b < 256 && c < 256 && d < 256 then some [a, b, c, d] else none
  | _, _, _, _ => none

/-- The method `IP.String` on nil and on IPv4 addresses. -/
def IPString (ip : IP) : String :=
  match ip with
  | some [a, b, c, d] => toString a ++ "." ++ toString b ++ "." ++ toString c ++ "." ++ toString d
  | some [] => "<nil>"
  | none => "<nil>"
  | _ => "?"

/-- The function `net.ResolveTCPAddr("tcp", address)` on a host without name service:
the empty address resolves to the zero address, `host:port` with an IPv4 literal (or no
host) and a decimal port resolves to itself, an address without a colon has no port. -/
def ResolveTCPAddr (address : String) : Except String TCPAddr :=
  if address = "" then .ok { IP := none, Port := 0, Zone := "" }
  else if !address.data.contains ':' then
    .error ("address " ++ address ++ ": missing port in address")
  else
    let host := String.mk (address.data.reverse.dropWhile (· ≠ ':')).reverse.dropLast
    let port := (address.data.reverse.takeWhile (· ≠ ':')).reverse
    match parseDec port with
    | none => .error ("lookup tcp/" ++ String.mk port ++ ": unknown port")
    | some p =>
      if p > 65535 then .error ("address " ++ address ++ ": invalid port")
      else if host = "" then .ok { IP := none, Port := p, Zone := "" }
      else
        match ParseIP host with
        | some ip => .ok { IP := some ip, Port := p, Zone := "" }
        | none => .error ("lookup " ++ host ++ ": no such host")

/-- A host whose network answers every dial with the connection `out` when `reachable`
holds and with `connection refused` otherwise. -/
def goEnv (reachable : Bool) (out : Conn) : Env where
  NewRequest := NewRequest
  ResolveTCPAddr := ResolveTCPAddr
  ParseIP := ParseIP
  IPString := IPString
  DialTCP := fun _ raddr =>
    if reachable then .ok out
    else .error ("dial tcp " ++ IPString raddr.IP ++ ":" ++ fmtD raddr.Port ++
      ": connect: connection refused")
  Dial := fun address =>
    if reachable then .ok out
    else .error ("dial tcp " ++ address ++ ": connect: connection refused")

/-! ## WebSocket handlers -/

/-- The arguments of one call `websocket.Dial(url, protocol, origin)`. -/
structure DialArgs where
  url : String
  protocol : String
  origin : String
  deriving DecidableEq, Repr

/-- The string `fmt.Sprintf("ws://%s:%d%s", targetHost, targetPort, ws.Request().RequestURI)`
(lines 225, 236). -/
def wsTargetURL (cfg : webSocketProxyConfig) (req : Request) : String :=
  "ws://" ++ cfg.TargetHost ++ ":" ++ fmtD cfg.TargetPort ++ req.RequestURI

/-- The dial of the WebSocket handler of a rule with a source address (lines 225-226);
`req` is `ws.Request()`. -/
def wsDialSource (cfg : webSocketProxyConfig) (req : Request) : DialArgs :=
  { url := wsTargetURL cfg req, protocol := "",
    origin := "http://" ++ cfg.SourceAddress ++ ":" ++ fmtD cfg.LocalPort }

/-- The dial of the WebSocket handler of a rule without a source address
(lines 236-237). -/
def wsDialDefault (cfg : webSocketProxyConfig) (req : Request) : DialArgs :=
  { url := wsTargetURL cfg req, protocol := "", origin := req.Header.Get "Origin" }

/-- The dial made by the handler registered on `wsMux` (lines 223-245). -/
def wsDial (cfg : webSocketProxyConfig) (req : Request) : DialArgs :=
  if len cfg.SourceAddress > 0 then wsDialSource cfg req else wsDialDefault cfg req

/-- Where the handler function of a WebSocket session stands once the dial has
succeeded: in `io.Copy(targetWS, ws)` (lines 232, 243), or returned. -/
inductive WsHandlerPC where
  | copying
  | returned
  deriving DecidableEq, Repr

/-- Where the goroutine `go io.Copy(ws, targetWS)` (lines 231, 242) stands. -/
inductive WsCopierPC where
  | copying
  | ended
  deriving DecidableEq, Repr

/-- A WebSocket relay session after a successful dial: the two copies and whether the
inbound connection `ws` and the upstream connection `targetWS` are closed. -/
structure WsSession where
  handler : WsHandlerPC
  copier : WsCopierPC
  wsClosed : Bool
  targetClosed : Bool
  deriving DecidableEq, Repr

/-- The session right after line 231 (or 242): both copies running, both sides open. -/
def WsSession.start : WsSession :=
  { handler := .copying, copier := .copying, wsClosed := false, targetClosed := false }

/-- The events of a WebSocket session: the upstream-to-client copy of the goroutine ends,
the client-to-upstream copy of the handler ends (the handler returns), and the websocket
server, to which the handler returned, runs its deferred close of the inbound
connection. -/
inductive WsEvent where
  | upstreamToClientEnds
  | clientToUpstreamEnds
  | serverClosesInbound
  deriving DecidableEq, Repr

/-- One event of a WebSocket session. Neither copy is followed by a `Close` in the
handlers; the only close is the server's, after the handler has returned. -/
def WsSession.step (s : WsSession) : WsEvent → WsSession
  | .upstreamToClientEnds => { s with copier := .ended }
  | .clientToUpstreamEnds => { s with handler := .returned }
  | .serverClosesInbound =>
    if s.handler = .returned then { s with wsClosed := true } else s

/-- A run of a WebSocket session. -/
def WsSession.run (s : WsSession) (events : List WsEvent) : WsSession :=
  events.foldl WsSession.step s

/-! ## TCP relay -/

/-- Where one copy goroutine of a TCP session (lines 85-92, 94-101, 112-119, 121-128)
stands: in `io.Copy`; after it, holding its error; after the `if err != nil` report;
after `conn.Close()`; after the second `Close()`, when the goroutine ends. -/
inductive CopyPC where
  | copying
  | copied (err : Option String)
  | reported
  | closedConn
  | finished
  deriving DecidableEq, Repr

/-- A TCP relay session: the inbound connection `conn`, the outbound connection
(`boundConn` or `targetConn`), whether each is closed, the two copy goroutines
(`up` copies inbound to outbound, `down` outbound to inbound) and what they wrote to
standard error. -/
structure TcpSession where
  conn : Conn
  out : Conn
  connClosed : Bool
  outClosed : Bool
  up : CopyPC
  down : CopyPC
  stderr : List String
  deriving DecidableEq, Repr

/-- The session when both goroutines have just been started. -/
def TcpSession.start (conn out : Conn) : TcpSession :=
  { conn := conn, out := out, connClosed := false, outClosed := false,
    up := .copying, down := .copying, stderr := [] }

/-- The two goroutines of a session. -/
inductive Task where
  | up
  | down
  deriving DecidableEq, Repr

/-- One scheduling step: the goroutine that runs, and the error `io.Copy` returns (none
at end of stream) should the goroutine be inside `io.Copy`. -/
structure Move where
  task : Task
  copyErr : Option String
  deriving DecidableEq, Repr

/-- The next statement of a copy goroutine: its new position, and the session fields it
changes. -/
def CopyPC.next (pc : CopyPC) (copyErr : Option String) (s : TcpSession) :
    CopyPC × TcpSession :=
  match pc with
  | .copying => (.copied copyErr, s)
  | .copied (some err) => (.reported, { s with stderr := s.stderr ++ [err ++ "\n"] })
  | .copied none => (.reported, s)
  | .reported => (.closedConn, { s with connClosed := true })
  | .closedConn => (.finished, { s with outClosed := true })
  | .finished => (.finished, s)

/-- One scheduling step of a session. -/
def TcpSession.step (s : TcpSession) (m : Move) : TcpSession :=
  match m.task with
  | .up => { (s.up.next m.copyErr s).2 with up := (s.up.next m.copyErr s).1 }
  | .down => { (s.down.next m.copyErr s).2 with down := (s.down.next m.copyErr s).1 }

/-- A run of a session under a schedule. -/
def TcpSession.run (s : TcpSession) (schedule : List Move) : TcpSession :=
  schedule.foldl TcpSession.step s

/-- What handling one accepted connection does before the next `Accept`: it panics on a
nil pointer, or it abandons the connection, or it starts a relay session. `out` is what
it wrote to standard output, `err` to standard error, `closed` the handles it closed. -/
inductive Handled where
  | panicked (msg : String)
  | abandoned (err : List String) (closed : List Conn)
  | relaying (out : List String) (session : TcpSession)
  deriving DecidableEq, Repr

/-- The text of Go's panic on a nil pointer dereference. -/
def nilDereference : String :=
  "runtime error: invalid memory address or nil pointer dereference"

/-- The expression `&net.TCPAddr{IP: net.ParseIP(a.IP.String()), Port: a.Port}`
(lines 73, 75). -/
def rebuildAddr (env : Env) (a : TCPAddr) : TCPAddr :=
  { IP := env.ParseIP (env.IPString a.IP), Port := a.Port, Zone := "" }

/-- The branch `len(sourceAddress) > 0` of the accept loop (lines 72-101). The errors of
both `ResolveTCPAddr` calls are dropped, and the nil pointer returned with an error is
dereferenced on the next line. -/
def relaySource (env : Env) (cfg : tcpProxyConfig) (conn : Conn) : Handled :=
  match env.ResolveTCPAddr cfg.target_address with
  | .error _ => .panicked nilDereference
  | .ok targetAddr =>
    match env.ResolveTCPAddr cfg.source_address with
    | .error _ => .panicked nilDereference
    | .ok sourceAddr =>
      match env.DialTCP (rebuildAddr env sourceAddr) (rebuildAddr env targetAddr) with
      | .error err => .abandoned [err ++ "\n"] [conn]
      | .ok boundConn =>
        .relaying
          ["Proxying TCP connection from " ++ conn.RemoteAddr ++ " to " ++
            cfg.target_address ++ " through " ++ cfg.source_address ++ "\n"]
          (TcpSession.start conn boundConn)

/-- The `else` branch of the accept loop (lines 103-128). -/
def relayDefault (env : Env) (cfg : tcpProxyConfig) (conn : Conn) : Handled :=
  match env.Dial cfg.target_address with
  | .error err => .abandoned [err ++ "\n"] [conn]
  | .ok targetConn =>
    .relaying
      ["Proxying TCP connection from " ++ conn.RemoteAddr ++ " to " ++
        cfg.target_address ++ "\n"]
      (TcpSession.start conn targetConn)

/-- The handling of one accepted connection (lines 71-129). -/
def handleConn (env : Env) (cfg : tcpProxyConfig) (conn : Conn) : Handled :=
  if len cfg.source_address > 0 then relaySource env cfg conn
  else relayDefault env cfg conn

/-- One return of `listener.Accept()`: an error, or a connection, together with the
state of the network while that connection is handled. -/
inductive Accepted where
  | failed (err : String)
  | conn (c : Conn) (env : Env)

/-- The accept loop so far: what each `Accept` led to, and the panic that ended the
process, if one did. -/
structure LoopTrace where
  handled : List Handled
  crashed : Option String
  deriving DecidableEq, Repr

/-- The accept loop (lines 64-130) over the returns of `Accept`. An accept error is
written to standard error and the loop continues; a panic ends the process, so the
connections after it are never accepted. -/
def acceptLoop (cfg : tcpProxyConfig) : List Accepted → LoopTrace
  | [] => { handled := [], crashed := none }
  | .failed err :: rest =>
    { acceptLoop cfg rest with
      handled := .abandoned [err ++ "\n"] [] :: (acceptLoop cfg rest).handled }
  | .conn c env :: rest =>
    match handleConn env cfg c with
    | .panicked msg => { handled := [.panicked msg], crashed := some msg }
    | h => { acceptLoop cfg rest with handled := h :: (acceptLoop cfg rest).handled }

/-! ## Start-up -/

/-- What `main` wrote while starting the rules. -/
structure Output where
  stdout : List String
  stderr : List String
  deriving DecidableEq, Repr

/-- Concatenation of outputs. -/
def Output.append (a b : Output) : Output :=
  { stdout := a.stdout ++ b.stdout, stderr := a.stderr ++ b.stderr }

/-- The text written by `fmt.Fprintln(os.Stderr, err)` for a bind outcome: nothing when
the bind succeeded (`none`). -/
def bindError : Option String → List String
  | none => []
  | some err => [err ++ "\n"]

/-- The TCP loop of `main` (lines 47-132): each rule comes with the outcome of its
`net.Listen`, `none` for success and `some err` for failure. -/
def startTCP : List (tcpProxyConfig × Option String) → Output
  | [] => { stdout := [], stderr := [] }
  | (_, some err) :: rest => Output.append { stdout := [], stderr := [err ++ "\n"] } (startTCP rest)
  | (cfg, none) :: rest =>
    Output.append
      { stdout := ["Started TCP proxy on port " ++ fmtD cfg.local_port ++ "\n"], stderr := [] }
      (startTCP rest)

/-- The HTTP loop of `main` (lines 135-207): each rule comes with the outcome of the bind
inside `server.ListenAndServe()`, which runs in its own goroutine; the line on standard
output is printed by `main` itself, right after the goroutine is started. -/
def startHTTP : List (httpProxyConfig × Option String) → Output
  | [] => { stdout := [], stderr := [] }
  | (cfg, bind) :: rest =>
    Output.append
      { stdout := ["Started HTTP proxy on port " ++ fmtD cfg.LocalPort ++ "\n"],
        stderr := bindError bind }
      (startHTTP rest)

/-- The WebSocket loop of `main` (lines 210-292): each rule comes with the bind outcomes
of its two servers (`server`, then `wsServer`). -/
def startWS : List (webSocketProxyConfig × Option String × Option String) → Output
  | [] => { stdout := [], stderr := [] }
  | (cfg, bind, wsBind) :: rest =>
    Output.append
      { stdout := ["Started WebSocket proxy on port " ++ fmtD cfg.LocalPort ++ "\n"],
        stderr := bindError bind ++ bindError wsBind }
      (startWS rest)

/-- The start-up part of `main` (lines 45-292). The errors of the server goroutines
appear on standard error at some later time; they are listed in the order of the
rules. -/
def main (tcp : List (tcpProxyConfig × Option String))
    (http : List (httpProxyConfig × Option String))
    (ws : List (webSocketProxyConfig × Option String × Option String)) : Output :=
  Output.append (startTCP tcp) (Output.append (startHTTP http) (startWS ws))

/-! ## Session invariant -/

/-- The goroutine is past its `conn.Close()`. -/
def CopyPC.pastFirstClose : CopyPC → Bool
  | .closedConn => true
  | .finished => true
  | _ => false

/-- The goroutine has ended. -/
def CopyPC.isFinished : CopyPC → Bool
  | .finished => true
  | _ => false

/-- The invariant of a TCP session: a goroutine past its first close has closed the
inbound connection, and a goroutine that has ended has closed the outbound one too. -/
def TcpSession.Inv (s : TcpSession) : Prop :=
  (s.up.pastFirstClose = true → s.connClosed = true) ∧
  (s.up.isFinished = true → s.outClosed = true) ∧
  (s.down.pastFirstClose = true → s.connClosed = true) ∧
  (s.down.isFinished = true → s.outClosed = true)

/-- The position of a goroutine of the session. -/
def TcpSession.pc (s : TcpSession) : Task → CopyPC
  | .up => s.up
  | .down => s.down

/-- The number of statements a goroutine still has to run before it ends. -/
def CopyPC.stepsLeft : CopyPC → Nat
  | .copying => 4
  | .copied _ => 3
  | .reported => 2
  | .closedConn => 1
  | .finished => 0

/-- How often a schedule runs the goroutine `t`. -/
def runsOf (t : Task) (schedule : List Move) : Nat :=
  schedule.countP (fun m => m.task = t)

/-! ## Sample inputs -/

/-- An inbound `GET /foo?x=1` as the server hands it to a handler. -/
def sampleRequest : Request :=
  { Method := "GET", URL := { Scheme := "", Host := "", Path := "/foo", RawQuery := "x=1", Fragment := "" },
    Header := [("Origin", ["http://client.example"]), ("User-Agent", ["curl/8.0"])],
    Body := "", Host := "localhost:8080", RequestURI := "/foo?x=1" }

/-- A WebSocket rule with the `secure` flag set. -/
def sampleSecureRule : webSocketProxyConfig :=
  { SourceAddress := "", TargetHost := "example.com", TargetPort := 9001, LocalPort := 9000,
    Secure := true }

/-- An upgraded request with request URI `/chat`. -/
def sampleUpgrade : Request := { sampleRequest with RequestURI := "/chat" }

/-- A TCP rule whose source address has no port. -/
def sampleSourceRule : tcpProxyConfig :=
  { local_port := 9000, source_address := "10.0.0.5", target_address := "10.0.0.9:80" }

/-- A TCP rule whose source address resolves. -/
def sampleBoundRule : tcpProxyConfig :=
  { local_port := 9000, source_address := "10.0.0.5:0", target_address := "10.0.0.9:80" }

/-- A TCP rule without a source address. -/
def sampleDefaultRule : tcpProxyConfig :=
  { local_port := 9000, source_address := "", target_address := "10.0.0.9:80" }

/-- An accepted client connection. -/
def sampleConn : Conn := { id := 1, RemoteAddr := "192.0.2.7:51000" }

/-- An outbound connection. -/
def sampleOut : Conn := { id := 2, RemoteAddr := "10.0.0.9:80" }

/-! # Theorems -/

/-- Go's `len(s) > 0` holds exactly for the non-empty strings. -/
theorem len_pos_iff (s : String) : 0 < len s ↔ s ≠ "" := by
  cases s with
  | mk cs =>
    cases cs with
    | nil => simp [len, String.utf8ByteSize, String.utf8ByteSize.go]
    | cons c cs =>
      have hc : 0 < c.utf8Size := Char.utf8Size_pos c
      have hne : (String.mk (c :: cs)) ≠ "" := by
        intro h
        have := congrArg String.data h
        simp at this
      simp only [len, String.utf8ByteSize, String.utf8ByteSize.go]
      constructor
      · intro _; exact hne
      · intro _; omega

/-! ## HTTP forward handlers -/

/-- The two handlers of an HTTP rule differ in the transport only. -/
theorem httpHandler_cases (env : Env) (cfg : httpProxyConfig) (r : Request) :
    httpHandler env cfg r =
      match buildRequest env cfg.TargetHost cfg.TargetPort r with
      | .error err => .httpError err StatusInternalServerError
      | .ok req =>
        .proxied (Director cfg.TargetHost req)
          (if len cfg.SourceAddress > 0 then
            boundTransport env cfg.SourceAddress cfg.TargetHost cfg.TargetPort
          else .default) := by
  unfold httpHandler httpHandlerSource httpHandlerDefault
  by_cases h : len cfg.SourceAddress > 0
  · rw [if_pos h]; cases buildRequest env cfg.TargetHost cfg.TargetPort r <;> simp [h]
  · rw [if_neg h]; cases buildRequest env cfg.TargetHost cfg.TargetPort r <;> simp [h]

/-- Whatever `http.NewRequest` returned, the request handed to the transport has the URL
host `targetHost`, without the port, and the scheme `http`. -/
theorem httpHandler_proxied_url (env : Env) (cfg : httpProxyConfig) (r out : Request)
    (t : Transport) (h : httpHandler env cfg r = .proxied out t) :
    out.URL.Scheme = "http" ∧ out.URL.Host = cfg.TargetHost := by
  rw [httpHandler_cases] at h
  cases hb : buildRequest env cfg.TargetHost cfg.TargetPort r with
  | error e => rw [hb] at h; simp at h
  | ok req =>
    rw [hb] at h
    simp only [Response.proxied.injEq] at h
    rw [← h.1]
    simp [Director]

/-- Claim C1, evaluated on the code: for the HTTP rule with target `example.com:8081`
and no source address, the inbound `GET /foo?x=1` is handed to the default transport with
URL host `example.com`; the target port 8081 is gone, so the request handed to the
transport is not addressed to `http://example.com:8081/foo?x=1`. -/
theorem C1_outbound_url_loses_target_port :
    httpHandler (goEnv true sampleOut)
        { SourceAddress := "", TargetHost := "example.com", TargetPort := 8081, LocalPort := 8080 }
        sampleRequest =
      .proxied
        { Method := "GET",
          URL := { Scheme := "http", Host := "example.com", Path := "/foo", RawQuery := "x=1",
                   Fragment := "" },
          Header := sampleRequest.Header, Body := "", Host := "example.com", RequestURI := "" }
        .default ∧
    ¬ ∃ out t, httpHandler (goEnv true sampleOut)
        { SourceAddress := "", TargetHost := "example.com", TargetPort := 8081, LocalPort := 8080 }
        sampleRequest = .proxied out t ∧ out.URL.Host = "example.com:8081" := by
  refine ⟨by decide, ?_⟩
  rintro ⟨out, t, h, hh⟩
  have hu := (httpHandler_proxied_url _ _ _ _ _ h).2
  rw [hh] at hu
  revert hu
  decide

/-- Claim C9: when `http.NewRequest` succeeds, the handler of an HTTP rule (either one)
forwards a request whose header set is the inbound request's and whose `Host` is
`targetHost`, without the port, whatever the inbound `Host` was; this holds for the
request as built by the handler and still after the `Director` has run. -/
theorem C9_outbound_headers_and_host (env : Env) (cfg : httpProxyConfig) (r req0 : Request)
    (h : env.NewRequest r.Method (targetURL cfg.TargetHost cfg.TargetPort r) r.Body = .ok req0) :
    buildRequest env cfg.TargetHost cfg.TargetPort r
        = .ok { req0 with Header := r.Header, Host := cfg.TargetHost } ∧
    ∃ out t, httpHandler env cfg r = .proxied out t ∧
      out.Header = r.Header ∧ out.Host = cfg.TargetHost := by
  have hb : buildRequest env cfg.TargetHost cfg.TargetPort r
      = .ok { req0 with Header := r.Header, Host := cfg.TargetHost } := by
    unfold buildRequest; rw [h]
  refine ⟨hb, ?_⟩
  rw [httpHandler_cases, hb]
  exact ⟨_, _, rfl, rfl, rfl⟩

/-- Witness C9: the rule with target `example.com:8081` on `GET /foo?x=1`. -/
theorem C9_outbound_headers_and_host_witness :
    buildRequest (goEnv true sampleOut) "example.com" 8081 sampleRequest
        = .ok { Method := "GET",
                URL := { Scheme := "http", Host := "example.com:8081", Path := "/foo",
                         RawQuery := "x=1", Fragment := "" },
                Header := sampleRequest.Header, Body := "", Host := "example.com",
                RequestURI := "" } ∧
    ∃ out t, httpHandler (goEnv true sampleOut)
        { SourceAddress := "", TargetHost := "example.com", TargetPort := 8081, LocalPort := 8080 }
        sampleRequest = .proxied out t ∧
      out.Header = sampleRequest.Header ∧ out.Host = "example.com" :=
  C9_outbound_headers_and_host (goEnv true sampleOut)
    { SourceAddress := "", TargetHost := "example.com", TargetPort := 8081, LocalPort := 8080 }
    sampleRequest
    { Method := "GET",
      URL := { Scheme := "http", Host := "example.com:8081", Path := "/foo",
               RawQuery := "x=1", Fragment := "" },
      Header := [], Body := "", Host := "example.com:8081", RequestURI := "" }
    rfl

/-- Claim C10: the handler of an HTTP rule (either one) answers through `http.Error`
with body `e` and status `code` exactly when `code` is 500 and `http.NewRequest` failed
with error `e`; in that case the result is not a forwarded request, and in no other case
does the handler write an error response. -/
theorem C10_error_response_iff_construction_fails (env : Env) (cfg : httpProxyConfig)
    (r : Request) (e : String) (code : Nat) :
    httpHandler env cfg r = .httpError e code ↔
      (code = 500 ∧
        env.NewRequest r.Method (targetURL cfg.TargetHost cfg.TargetPort r) r.Body = .error e) := by
  rw [httpHandler_cases]
  unfold buildRequest
  cases hn : env.NewRequest r.Method (targetURL cfg.TargetHost cfg.TargetPort r) r.Body with
  | error err =>
    simp only [Response.httpError.injEq, StatusInternalServerError, Except.error.injEq]
    constructor
    · rintro ⟨h1, h2⟩; exact ⟨h2.symm, h1⟩
    · rintro ⟨h1, h2⟩; exact ⟨h2, h1.symm⟩
  | ok req => simp

/-- The handler of a rule whose target host has a space answers 500 with the text of the
parse error. -/
theorem httpHandler_bad_host :
    httpHandler (goEnv true sampleOut)
        { SourceAddress := "", TargetHost := "bad host", TargetPort := 8081, LocalPort := 8080 }
        sampleRequest =
      .httpError "parse \"http://bad host:8081/foo?x=1\": invalid character \" \" in host name"
        500 := by
  decide

/-- The plain-HTTP handler of a WebSocket rule builds the same outbound request as the
handlers of an HTTP rule with the same target, and answers the same errors; its
transport is always the one bound through `net.DialTCP`. -/
theorem wsHttpHandler_cases (env : Env) (cfg : webSocketProxyConfig) (r : Request) :
    wsHttpHandler env cfg r =
      match buildRequest env cfg.TargetHost cfg.TargetPort r with
      | .error err => .httpError err StatusInternalServerError
      | .ok req =>
        .proxied (Director cfg.TargetHost req)
          (boundTransport env cfg.SourceAddress cfg.TargetHost cfg.TargetPort) := by
  rfl

/-- With a non-empty source address the plain-HTTP handler of a WebSocket rule does what
the handler of the HTTP rule with the same addresses does. -/
theorem wsHttpHandler_eq_httpHandler_of_source (env : Env) (cfg : webSocketProxyConfig)
    (r : Request) (h : cfg.SourceAddress ≠ "") :
    wsHttpHandler env cfg r =
      httpHandler env
        { SourceAddress := cfg.SourceAddress, TargetHost := cfg.TargetHost,
          TargetPort := cfg.TargetPort, LocalPort := cfg.LocalPort } r := by
  have hp : len cfg.SourceAddress > 0 := (len_pos_iff _).2 h
  rw [httpHandler_cases, wsHttpHandler_cases]
  simp only [hp, if_true]

/-- In every environment, a request forwarded by the plain-HTTP handler of a WebSocket
rule goes through the custom transport, also when the source address is empty, while the
handler of an HTTP rule with an empty source address uses the default transport. -/
theorem wsHttpHandler_transport (env : Env) (cfg : webSocketProxyConfig) (r out out2 : Request)
    (t t2 : Transport) (hs : cfg.SourceAddress = "")
    (h : wsHttpHandler env cfg r = .proxied out t)
    (h2 : httpHandler env
        { SourceAddress := cfg.SourceAddress, TargetHost := cfg.TargetHost,
          TargetPort := cfg.TargetPort, LocalPort := cfg.LocalPort } r = .proxied out2 t2) :
    out = out2 ∧ t2 = .default ∧
      t = boundTransport env "" cfg.TargetHost cfg.TargetPort ∧ t ≠ t2 := by
  have hn : ¬ (len cfg.SourceAddress > 0) := fun hp => (len_pos_iff _).1 hp hs
  rw [httpHandler_cases] at h2
  rw [wsHttpHandler_cases] at h
  simp only [hn, if_false] at h2
  cases hb : buildRequest env cfg.TargetHost cfg.TargetPort r with
  | error e => rw [hb] at h; simp at h
  | ok req =>
    rw [hb] at h h2
    simp only [Response.proxied.injEq] at h h2
    obtain ⟨h1, h1t⟩ := h
    obtain ⟨h3, h3t⟩ := h2
    refine ⟨h1.symm.trans h3, h3t.symm, ?_, ?_⟩
    · rw [← h1t, hs]
    · rw [← h1t, ← h3t]; simp [boundTransport]

/-- Claim C8, evaluated on the code: for the rule with target `127.0.0.1:8081` and an
empty source address, the handler of the HTTP rule forwards `GET /foo?x=1` through the
default transport, while the plain-HTTP handler of the WebSocket rule forwards the same
outbound request through a custom transport whose dial is `net.DialTCP` from the address
the empty string resolves to; the two handlers do not select the same dial. -/
theorem C8_ws_plain_http_always_custom_transport :
    httpHandler (goEnv true sampleOut)
        { SourceAddress := "", TargetHost := "127.0.0.1", TargetPort := 8081, LocalPort := 8080 }
        sampleRequest =
      .proxied
        { Method := "GET",
          URL := { Scheme := "http", Host := "127.0.0.1", Path := "/foo", RawQuery := "x=1",
                   Fragment := "" },
          Header := sampleRequest.Header, Body := "", Host := "127.0.0.1", RequestURI := "" }
        .default ∧
    wsHttpHandler (goEnv true sampleOut)
        { SourceAddress := "", TargetHost := "127.0.0.1", TargetPort := 8081, LocalPort := 8080,
          Secure := false }
        sampleRequest =
      .proxied
        { Method := "GET",
          URL := { Scheme := "http", Host := "127.0.0.1", Path := "/foo", RawQuery := "x=1",
                   Fragment := "" },
          Header := sampleRequest.Header, Body := "", Host := "127.0.0.1", RequestURI := "" }
        (.dialTCP (some { IP := none, Port := 0, Zone := "" })
          { IP := some [127, 0, 0, 1], Port := 8081, Zone := "" }) := by
  decide

/-! ## WebSocket handlers -/

/-- Claim C2 fails as stated: for a rule with `secure` set, target `example.com:9001`
and request URI `/chat`, the URL dialled is `ws://example.com:9001/chat`, not the URL
with scheme `wss` that the claim gives. -/
theorem C2_secure_rule_dials_ws :
    (wsDial sampleSecureRule sampleUpgrade).url = "ws://example.com:9001/chat" ∧
    (wsDial sampleSecureRule sampleUpgrade).url ≠
      (if sampleSecureRule.Secure then "wss" else "ws") ++ "://" ++ sampleSecureRule.TargetHost
        ++ ":" ++ fmtD sampleSecureRule.TargetPort ++ sampleUpgrade.RequestURI := by
  decide

/-- Claim C2 as amended: for every WebSocket rule, whatever its `secure` flag and its
source address, and every upgraded request with request URI `u`, the URL dialled is
`ws://<targetHost>:<targetPort><u>`. -/
theorem C2_ws_upstream_url (cfg : webSocketProxyConfig) (req : Request) :
    (wsDial cfg req).url =
      "ws://" ++ cfg.TargetHost ++ ":" ++ fmtD cfg.TargetPort ++ req.RequestURI := by
  unfold wsDial
  split <;> rfl

/-- Claim C7: the origin given to `websocket.Dial` is the inbound request's `Origin`
header value when the rule's source address is empty, and otherwise
`http://<sourceAddress>:<localPort>`, in which the inbound request plays no part. -/
theorem C7_ws_dial_origin (cfg : webSocketProxyConfig) (req : Request) :
    (wsDial cfg req).origin =
      if cfg.SourceAddress = "" then req.Header.Get "Origin"
      else "http://" ++ cfg.SourceAddress ++ ":" ++ fmtD cfg.LocalPort := by
  unfold wsDial
  by_cases h : cfg.SourceAddress = ""
  · have hn : ¬ (len cfg.SourceAddress > 0) := fun hp => (len_pos_iff _).1 hp h
    rw [if_neg hn, if_pos h]; rfl
  · have hp : len cfg.SourceAddress > 0 := (len_pos_iff _).2 h
    rw [if_pos hp, if_neg h]; rfl

/-- The origin on two sample rules: the client's own origin without a source address,
the synthetic one with it. -/
theorem wsDial_origin_samples :
    (wsDial { SourceAddress := "", TargetHost := "example.com", TargetPort := 9001,
              LocalPort := 9000, Secure := false } sampleRequest).origin
        = "http://client.example" ∧
    (wsDial { SourceAddress := "10.0.0.5", TargetHost := "example.com", TargetPort := 9001,
              LocalPort := 9000, Secure := false } sampleRequest).origin
        = "http://10.0.0.5:9000" := by
  decide

/-- No event of a WebSocket session closes the upstream connection. -/
theorem WsSession.step_targetClosed (s : WsSession) (e : WsEvent) :
    (s.step e).targetClosed = s.targetClosed := by
  cases e <;> simp only [WsSession.step]
  split <;> rfl

/-- No run of a WebSocket session closes the upstream connection. -/
theorem WsSession.run_targetClosed (events : List WsEvent) (s : WsSession) :
    (s.run events).targetClosed = s.targetClosed := by
  induction events generalizing s with
  | nil => rfl
  | cons e es ih =>
    show ((s.step e).run es).targetClosed = s.targetClosed
    rw [ih, WsSession.step_targetClosed]

/-- Claim C5, evaluated on the code: when the upstream-to-client copy of a WebSocket
session ends, the session goes on with both connections open and the handler still in
its own copy; when the client-to-upstream copy ends and the server has run its deferred
close, the upstream connection is still open; and no run of a session ever closes the
upstream connection. -/
theorem C5_ws_copy_end_leaves_upstream_open :
    WsSession.start.run [.upstreamToClientEnds] =
      { handler := .copying, copier := .ended, wsClosed := false, targetClosed := false } ∧
    WsSession.start.run [.clientToUpstreamEnds, .serverClosesInbound] =
      { handler := .returned, copier := .copying, wsClosed := true, targetClosed := false } ∧
    ∀ events : List WsEvent, (WsSession.start.run events).targetClosed = false := by
  refine ⟨by decide, by decide, fun events => ?_⟩
  rw [WsSession.run_targetClosed]; rfl

/-! ## TCP relay -/

/-- A session that has just started satisfies the invariant. -/
theorem TcpSession.inv_start (conn out : Conn) : (TcpSession.start conn out).Inv := by
  simp [TcpSession.Inv, TcpSession.start, CopyPC.pastFirstClose, CopyPC.isFinished]

/-- Every scheduling step keeps the invariant. -/
theorem TcpSession.inv_step (s : TcpSession) (m : Move) (h : s.Inv) : (s.step m).Inv := by
  obtain ⟨h1, h2, h3, h4⟩ := h
  rcases m with ⟨task, copyErr⟩
  cases task
  · cases hu : s.up with
    | copied err =>
      cases err <;>
        simp_all [TcpSession.Inv, TcpSession.step, CopyPC.next, CopyPC.pastFirstClose,
          CopyPC.isFinished]
    | _ =>
      simp_all [TcpSession.Inv, TcpSession.step, CopyPC.next, CopyPC.pastFirstClose,
        CopyPC.isFinished]
  · cases hd : s.down with
    | copied err =>
      cases err <;>
        simp_all [TcpSession.Inv, TcpSession.step, CopyPC.next, CopyPC.pastFirstClose,
          CopyPC.isFinished]
    | _ =>
      simp_all [TcpSession.Inv, TcpSession.step, CopyPC.next, CopyPC.pastFirstClose,
        CopyPC.isFinished]

/-- Every run keeps the invariant. -/
theorem TcpSession.inv_run (schedule : List Move) (s : TcpSession) (h : s.Inv) :
    (s.run schedule).Inv := by
  induction schedule generalizing s with
  | nil => exact h
  | cons m ms ih => exact ih (s.step m) (TcpSession.inv_step s m h)

/-- A step changes neither handle of the session. -/
theorem TcpSession.step_handles (s : TcpSession) (m : Move) :
    (s.step m).conn = s.conn ∧ (s.step m).out = s.out := by
  rcases m with ⟨task, copyErr⟩
  cases task
  · cases hu : s.up with
    | copied err => cases err <;> simp [TcpSession.step, CopyPC.next, hu]
    | _ => simp [TcpSession.step, CopyPC.next, hu]
  · cases hd : s.down with
    | copied err => cases err <;> simp [TcpSession.step, CopyPC.next, hd]
    | _ => simp [TcpSession.step, CopyPC.next, hd]

/-- A run changes neither handle of the session. -/
theorem TcpSession.run_handles (schedule : List Move) (s : TcpSession) :
    (s.run schedule).conn = s.conn ∧ (s.run schedule).out = s.out := by
  induction schedule generalizing s with
  | nil => exact ⟨rfl, rfl⟩
  | cons m ms ih =>
    have h1 := ih (s.step m)
    have h2 := TcpSession.step_handles s m
    exact ⟨h1.1.trans h2.1, h1.2.trans h2.2⟩

/-- A relay session started by the accept loop, in either branch, is a fresh session on
the accepted connection. -/
theorem handleConn_relaying (env : Env) (cfg : tcpProxyConfig) (c : Conn)
    (out : List String) (s0 : TcpSession) (h : handleConn env cfg c = .relaying out s0) :
    ∃ o, s0 = TcpSession.start c o := by
  unfold handleConn at h
  split at h
  · unfold relaySource at h
    split at h
    · cases h
    · split at h
      · cases h
      · split at h
        · cases h
        · rename_i boundConn _
          simp only [Handled.relaying.injEq] at h
          exact ⟨boundConn, h.2.symm⟩
  · unfold relayDefault at h
    split at h
    · cases h
    · rename_i targetConn _
      simp only [Handled.relaying.injEq] at h
      exact ⟨targetConn, h.2.symm⟩

/-- The position of a goroutine after a step: the goroutine that ran has executed its
next statement, the other one has not moved. -/
theorem TcpSession.step_pc (s : TcpSession) (m : Move) (t : Task) :
    (s.step m).pc t = if m.task = t then ((s.pc t).next m.copyErr s).1 else s.pc t := by
  rcases m with ⟨task, copyErr⟩
  cases task <;> cases t
  · simp [TcpSession.step, TcpSession.pc]
  · cases hu : s.up with
    | copied err => cases err <;> simp [TcpSession.step, TcpSession.pc, CopyPC.next, hu]
    | _ => simp [TcpSession.step, TcpSession.pc, CopyPC.next, hu]
  · cases hd : s.down with
    | copied err => cases err <;> simp [TcpSession.step, TcpSession.pc, CopyPC.next, hd]
    | _ => simp [TcpSession.step, TcpSession.pc, CopyPC.next, hd]
  · simp [TcpSession.step, TcpSession.pc]

/-- Each statement of a goroutine brings it one statement closer to its end, whatever
`io.Copy` returned. -/
theorem CopyPC.stepsLeft_next (pc : CopyPC) (e : Option String) (s : TcpSession) :
    (pc.next e s).1.stepsLeft = pc.stepsLeft - 1 := by
  cases pc with
  | copied err => cases err <;> rfl
  | _ => rfl

/-- A goroutine with no statement left has ended. -/
theorem CopyPC.stepsLeft_eq_zero (pc : CopyPC) (h : pc.stepsLeft = 0) : pc = .finished := by
  cases pc <;> simp [CopyPC.stepsLeft] at h ⊢

/-- Progress: under every schedule that runs a goroutine at least as often as it has
statements left, however the other goroutine is interleaved, the goroutine ends. -/
theorem TcpSession.run_finishes (t : Task) (later : List Move) (s : TcpSession)
    (h : (s.pc t).stepsLeft ≤ runsOf t later) : (s.run later).pc t = .finished := by
  induction later generalizing s with
  | nil =>
    have h0 : (s.pc t).stepsLeft = 0 := by
      simpa [runsOf] using h
    exact CopyPC.stepsLeft_eq_zero _ h0
  | cons m ms ih =>
    show ((s.step m).run ms).pc t = .finished
    apply ih
    rw [TcpSession.step_pc]
    by_cases hm : m.task = t
    · have hc : runsOf t (m :: ms) = runsOf t ms + 1 := by
        simp [runsOf, List.countP_cons, hm]
      rw [if_pos hm, CopyPC.stepsLeft_next]
      omega
    · have hc : runsOf t (m :: ms) = runsOf t ms := by
        simp [runsOf, List.countP_cons, hm]
      rw [if_neg hm]
      omega

/-- In a state that satisfies the invariant, a goroutine that has ended has closed both
connections. -/
theorem TcpSession.Inv.closed_of_finished (s : TcpSession) (h : s.Inv) (t : Task)
    (ht : s.pc t = .finished) : s.connClosed = true ∧ s.outClosed = true := by
  obtain ⟨h1, h2, h3, h4⟩ := h
  cases t
  · have hu : s.up = .finished := ht
    rw [hu] at h1 h2; exact ⟨h1 rfl, h2 rfl⟩
  · have hd : s.down = .finished := ht
    rw [hd] at h3 h4; exact ⟨h3 rfl, h4 rfl⟩

/-- Claim C4: a relay session started by the accept loop for a TCP rule, with or without
a source address, starts on the accepted connection with both copies running, and in
every state `s` it reaches under a schedule `pre` of its two goroutines:
(1) a goroutine inside `io.Copy` leaves it, when scheduled, with whatever `io.Copy`
returned, end of stream (`none`) or an error;
(2) once the copy of a goroutine has returned, by end of stream or by an error, every
continuation that runs that goroutine three more times, however the other goroutine is
interleaved, ends it with the inbound connection (the accepted one) and the outbound
connection both closed;
(3) if either goroutine has ended in `s`, both connections are closed in `s`. -/
theorem C4_tcp_copy_end_closes_both (env : Env) (cfg : tcpProxyConfig) (c : Conn)
    (out : List String) (s0 : TcpSession) (pre : List Move)
    (h : handleConn env cfg c = .relaying out s0) :
    (∃ o, s0 = TcpSession.start c o) ∧
    (∀ (t : Task) (e : Option String), (s0.run pre).pc t = .copying →
      ((s0.run pre).step ⟨t, e⟩).pc t = .copied e) ∧
    (∀ (t : Task) (e : Option String) (later : List Move),
      (s0.run pre).pc t = .copied e → 3 ≤ runsOf t later →
        ((s0.run pre).run later).pc t = .finished ∧
        ((s0.run pre).run later).conn = c ∧
        ((s0.run pre).run later).connClosed = true ∧
        ((s0.run pre).run later).outClosed = true) ∧
    (((s0.run pre).up = .finished ∨ (s0.run pre).down = .finished) →
      (s0.run pre).conn = c ∧
        (s0.run pre).connClosed = true ∧ (s0.run pre).outClosed = true) := by
  obtain ⟨o, rfl⟩ := handleConn_relaying env cfg c out s0 h
  have hinv := TcpSession.inv_run pre _ (TcpSession.inv_start c o)
  have hc : ((TcpSession.start c o).run pre).conn = c :=
    (TcpSession.run_handles pre (TcpSession.start c o)).1
  refine ⟨⟨o, rfl⟩, ?_, ?_, ?_⟩
  · intro t e ht
    rw [TcpSession.step_pc]
    simp only [if_true]
    rw [ht]
    rfl
  · intro t e later ht hruns
    have hfin : (((TcpSession.start c o).run pre).run later).pc t = .finished := by
      apply TcpSession.run_finishes
      rw [ht]
      exact hruns
    have hinv2 := TcpSession.inv_run later _ hinv
    have hcl := TcpSession.Inv.closed_of_finished _ hinv2 t hfin
    have hc2 := (TcpSession.run_handles later ((TcpSession.start c o).run pre)).1
    exact ⟨hfin, hc2.trans hc, hcl.1, hcl.2⟩
  · intro hend
    rcases hend with hu | hd
    · exact ⟨hc, TcpSession.Inv.closed_of_finished _ hinv .up hu⟩
    · exact ⟨hc, TcpSession.Inv.closed_of_finished _ hinv .down hd⟩

/-- Witness C4. In the branch without a source address: the inbound-to-outbound copy
ends at end of stream, and its goroutine, interleaved with the other one (whose copy
then fails), ends with both connections closed. In the branch with a source address:
the outbound-to-inbound copy ends with an error while the other copy is still running,
and its goroutine ends with both connections closed; in the state reached then, the
goroutine has ended and both connections are closed. A goroutine inside `io.Copy`
leaves it when scheduled. -/
theorem C4_tcp_copy_end_closes_both_witness :
    ((((TcpSession.start sampleConn sampleOut).run [⟨.up, none⟩]).run
        [⟨.up, none⟩, ⟨.down, some "use of closed network connection"⟩, ⟨.up, none⟩,
         ⟨.down, none⟩, ⟨.up, none⟩]).pc .up = .finished ∧
     (((TcpSession.start sampleConn sampleOut).run [⟨.up, none⟩]).run
        [⟨.up, none⟩, ⟨.down, some "use of closed network connection"⟩, ⟨.up, none⟩,
         ⟨.down, none⟩, ⟨.up, none⟩]).conn = sampleConn ∧
     (((TcpSession.start sampleConn sampleOut).run [⟨.up, none⟩]).run
        [⟨.up, none⟩, ⟨.down, some "use of closed network connection"⟩, ⟨.up, none⟩,
         ⟨.down, none⟩, ⟨.up, none⟩]).connClosed = true ∧
     (((TcpSession.start sampleConn sampleOut).run [⟨.up, none⟩]).run
        [⟨.up, none⟩, ⟨.down, some "use of closed network connection"⟩, ⟨.up, none⟩,
         ⟨.down, none⟩, ⟨.up, none⟩]).outClosed = true) ∧
    ((((TcpSession.start sampleConn sampleOut).run
        [⟨.down, some "read: connection reset by peer"⟩]).run
        [⟨.down, none⟩, ⟨.down, none⟩, ⟨.down, none⟩]).pc .down = .finished ∧
     (((TcpSession.start sampleConn sampleOut).run
        [⟨.down, some "read: connection reset by peer"⟩]).run
        [⟨.down, none⟩, ⟨.down, none⟩, ⟨.down, none⟩]).conn = sampleConn ∧
     (((TcpSession.start sampleConn sampleOut).run
        [⟨.down, some "read: connection reset by peer"⟩]).run
        [⟨.down, none⟩, ⟨.down, none⟩, ⟨.down, none⟩]).connClosed = true ∧
     (((TcpSession.start sampleConn sampleOut).run
        [⟨.down, some "read: connection reset by peer"⟩]).run
        [⟨.down, none⟩, ⟨.down, none⟩, ⟨.down, none⟩]).outClosed = true) ∧
    (((TcpSession.start sampleConn sampleOut).run
        [⟨.down, some "read: connection reset by peer"⟩, ⟨.down, none⟩, ⟨.down, none⟩,
         ⟨.down, none⟩]).conn = sampleConn ∧
     ((TcpSession.start sampleConn sampleOut).run
        [⟨.down, some "read: connection reset by peer"⟩, ⟨.down, none⟩, ⟨.down, none⟩,
         ⟨.down, none⟩]).connClosed = true ∧
     ((TcpSession.start sampleConn sampleOut).run
        [⟨.down, some "read: connection reset by peer"⟩, ⟨.down, none⟩, ⟨.down, none⟩,
         ⟨.down, none⟩]).outClosed = true) ∧
    (((TcpSession.start sampleConn sampleOut).run []).step ⟨.down, none⟩).pc .down
      = .copied none :=
  ⟨(C4_tcp_copy_end_closes_both (goEnv true sampleOut) sampleDefaultRule sampleConn
      ["Proxying TCP connection from 192.0.2.7:51000 to 10.0.0.9:80\n"]
      (TcpSession.start sampleConn sampleOut) [⟨.up, none⟩] (by decide)).2.2.1
      .up none
      [⟨.up, none⟩, ⟨.down, some "use of closed network connection"⟩, ⟨.up, none⟩,
       ⟨.down, none⟩, ⟨.up, none⟩]
      (by decide) (by decide),
   (C4_tcp_copy_end_closes_both (goEnv true sampleOut) sampleBoundRule sampleConn
      ["Proxying TCP connection from 192.0.2.7:51000 to 10.0.0.9:80 through 10.0.0.5:0\n"]
      (TcpSession.start sampleConn sampleOut)
      [⟨.down, some "read: connection reset by peer"⟩] (by decide)).2.2.1
      .down (some "read: connection reset by peer")
      [⟨.down, none⟩, ⟨.down, none⟩, ⟨.down, none⟩]
      (by decide) (by decide),
   (C4_tcp_copy_end_closes_both (goEnv true sampleOut) sampleBoundRule sampleConn
      ["Proxying TCP connection from 192.0.2.7:51000 to 10.0.0.9:80 through 10.0.0.5:0\n"]
      (TcpSession.start sampleConn sampleOut)
      [⟨.down, some "read: connection reset by peer"⟩, ⟨.down, none⟩, ⟨.down, none⟩,
       ⟨.down, none⟩] (by decide)).2.2.2 (Or.inr (by decide)),
   (C4_tcp_copy_end_closes_both (goEnv true sampleOut) sampleBoundRule sampleConn
      ["Proxying TCP connection from 192.0.2.7:51000 to 10.0.0.9:80 through 10.0.0.5:0\n"]
      (TcpSession.start sampleConn sampleOut) [] (by decide)).2.1 .down none (by decide)⟩

/-- In the branch without a source address a failed dial is written to standard error,
the inbound connection is closed, no session is started, and the loop goes on. -/
theorem relayDefault_dial_failure (env : Env) (cfg : tcpProxyConfig) (c : Conn)
    (err : String) (h : env.Dial cfg.target_address = .error err) :
    relayDefault env cfg c = .abandoned [err ++ "\n"] [c] := by
  unfold relayDefault; rw [h]

/-- In the branch with a source address, when both addresses resolve, a failed dial is
written to standard error, the inbound connection is closed, no session is started, and
the loop goes on. -/
theorem relaySource_dial_failure (env : Env) (cfg : tcpProxyConfig) (c : Conn)
    (ta sa : TCPAddr) (err : String)
    (ht : env.ResolveTCPAddr cfg.target_address = .ok ta)
    (hs : env.ResolveTCPAddr cfg.source_address = .ok sa)
    (h : env.DialTCP (rebuildAddr env sa) (rebuildAddr env ta) = .error err) :
    relaySource env cfg c = .abandoned [err ++ "\n"] [c] := by
  unfold relaySource; rw [ht]; simp only; rw [hs]; simp only; rw [h]

/-- Claim C3, evaluated on the code: for the TCP rule with source address `10.0.0.5`
(which has no port and so does not resolve) the handling of an accepted connection
panics on a nil pointer: no error line is written, the inbound connection is not closed,
and the accept loop, with the process, ends there, so that a second connection is never
handled. -/
theorem C3_unresolved_source_address_panics :
    handleConn (goEnv true sampleOut) sampleSourceRule sampleConn
      = .panicked nilDereference ∧
    acceptLoop sampleSourceRule
        [.conn sampleConn (goEnv true sampleOut),
         .conn { id := 3, RemoteAddr := "192.0.2.8:51001" } (goEnv true sampleOut)]
      = { handled := [.panicked nilDereference], crashed := some nilDereference } := by
  decide

/-! ## Start-up -/

/-- Claim C6, evaluated on the code: with one HTTP rule on port 8080 whose bind fails,
`main` still prints `Started HTTP proxy on port 8080`, next to the error line. -/
theorem C6_started_line_printed_when_http_bind_fails :
    main [] [({ SourceAddress := "", TargetHost := "127.0.0.1", TargetPort := 8081,
                LocalPort := 8080 },
              some "listen tcp :8080: bind: address already in use")] []
      = { stdout := ["Started HTTP proxy on port 8080\n"],
          stderr := ["listen tcp :8080: bind: address already in use\n"] } := by
  decide

/-- For TCP rules the `Started` lines are those of the rules whose listener bound. -/
theorem startTCP_stdout (rules : List (tcpProxyConfig × Option String)) :
    (startTCP rules).stdout =
      (rules.filter (fun p => p.2.isNone)).map
        (fun p => "Started TCP proxy on port " ++ fmtD p.1.local_port ++ "\n") := by
  induction rules with
  | nil => rfl
  | cons p rest ih =>
    rcases p with ⟨cfg, bind⟩
    cases bind <;> simp [startTCP, Output.append, ih]

/-- For HTTP rules there is one `Started` line for every rule, bound or not. -/
theorem startHTTP_stdout (rules : List (httpProxyConfig × Option String)) :
    (startHTTP rules).stdout =
      rules.map (fun p => "Started HTTP proxy on port " ++ fmtD p.1.LocalPort ++ "\n") := by
  induction rules with
  | nil => rfl
  | cons p rest ih =>
    rcases p with ⟨cfg, bind⟩
    simp [startHTTP, Output.append, ih]

end GoProxy
